import Mathlib

/-!
Shallow embedding of the execution core of multi-agent-cli
(src/multi_agent_cli/executor.py, coordinator.py, models/results.py,
models/workflow.py), with theorems settling the specification claims.

Modelling conventions:
* Python JSON-like values are the inductive JValue; a Python float is
  modelled as a rational number (the gate comparisons and duration sums
  are order and field operations, exact on the represented values).
* A Python dict is an association list looked up by first match (source
  dicts have unique keys; the completed-steps map keeps the newest
  binding first, matching dict assignment overwrite).
* Wall-clock readings (durations, timestamps) are oracle parameters: the
  code treats them as opaque inputs from time.time and datetime.now.
* The agent bridge (factory.AgentBridge.invoke_agent) is an oracle from
  (agent, action, params) to an InvokeOutcome: a returned mapping, a
  TimeoutError raised while awaiting, or another raised exception
  rendered by str(e). BaseExceptions such as KeyboardInterrupt, and
  pydantic field validation, are outside the model.
* The metrics collaborator has no observable state in the model; what
  matters to control flow is whether each record method the executor
  calls raises, which MetricsBehavior captures. Metric exceptions are
  modelled as generic Exceptions (never TimeoutError).
-/

namespace MultiAgentCli

/-- A JSON-like Python value as found in params and data mappings. jNull
models Python None stored under a key. -/
inductive JValue where
  | jInt : Int → JValue
  | jFloat : Rat → JValue
  | jStr : String → JValue
  | jBool : Bool → JValue
  | jNull : JValue
  deriving DecidableEq

/-- How a Python f-string renders a value via str(x). Floats are rendered
from the rational model, a stand-in for float repr that no claim relies on
numerically. -/
def JValue.pyRepr : JValue → String
  | .jInt n => toString n
  | .jFloat q => toString q
  | .jStr s => s
  | .jBool b => if b then "True" else "False"
  | .jNull => "None"

/-- f-string rendering of an optional value (Python None prints None). -/
def optPyRepr : Option JValue → String
  | none => "None"
  | some v => v.pyRepr

/-- isinstance(v, int): Python bool is a subclass of int. -/
def JValue.pyIsInt : JValue → Bool
  | .jInt _ => true
  | .jBool _ => true
  | _ => false

/-- isinstance(v, (int, float)). -/
def JValue.pyIsNum : JValue → Bool
  | .jInt _ => true
  | .jBool _ => true
  | .jFloat _ => true
  | _ => false

/-- The integer value of an int instance (bool coerces to 0 or 1). -/
def JValue.pyIntVal : JValue → Int
  | .jInt n => n
  | .jBool b => if b then 1 else 0
  | _ => 0

/-- The numeric value of an (int, float) instance. -/
def JValue.pyNumVal : JValue → Rat
  | .jInt n => (n : Rat)
  | .jBool b => if b then 1 else 0
  | .jFloat q => q
  | _ => 0

/-- A Python string-keyed mapping, as an association list. -/
abbrev PyDict := List (String × JValue)

/-- models/results.py AgentResult. status is modelled as the raw string the
executor stores; error as the raw value extracted from the data mapping
(an error value of some jNull corresponds to Python error=None). -/
structure AgentResult where
  agent : String
  action : String
  status : String
  data : PyDict
  duration_seconds : Rat
  timestamp : String
  error : Option JValue
  deriving DecidableEq

/-- models/results.py AgentResult.failure; the timestamp argument stands
for datetime.now().isoformat(). -/
def AgentResult.failure (agent action error : String) (duration_seconds : Rat)
    (timestamp : String) : AgentResult :=
  { agent, action, status := "error", data := [],
    duration_seconds, timestamp, error := some (.jStr error) }

/-- The mapping returned by AgentBridge.invoke_agent: the executor reads
only the keys status (defaulting to the string success) and data
(defaulting to the empty mapping), so the return is modelled by those two
optional fields. -/
structure InvokeResult where
  status : Option String
  data : Option PyDict
  deriving DecidableEq

/-- Outcome of one awaited invocation inside the try block of
AgentExecutor.execute: a returned mapping, a TimeoutError from
asyncio.wait_for, or another raised exception rendered by str(e). -/
inductive InvokeOutcome where
  | ok : InvokeResult → InvokeOutcome
  | timedOut : InvokeOutcome
  | raised : String → InvokeOutcome
  deriving DecidableEq

/-- The agent bridge as an oracle from the invocation arguments to the
outcome of awaiting that invocation. -/
abbrev Bridge := String → String → PyDict → InvokeOutcome

/-- An invocation outcome that is a failure mode for the executor: in-band
error status, timeout, or raised exception. -/
def InvokeOutcome.isFailure : InvokeOutcome → Bool
  | .ok res => (res.status.getD "success") == "error"
  | .timedOut => true
  | .raised _ => true

/-- Control-flow-relevant behaviour of a metrics collaborator: for each of
the three record methods the executor calls, whether it raises and with
what message str(e); the recorded data itself has no effect on the core. -/
structure MetricsBehavior where
  invocationRaises : Option String
  successRaises : Option String
  errorRaises : Option String
  deriving DecidableEq

/-- Behaviour of record_agent_invocation, for an optional collaborator
(if self.metrics is falsy the method is never called, hence no raise). -/
def invocationExn : Option MetricsBehavior → Option String
  | none => none
  | some mb => mb.invocationRaises

/-- Behaviour of record_agent_success for an optional collaborator. -/
def successExn : Option MetricsBehavior → Option String
  | none => none
  | some mb => mb.successRaises

/-- Behaviour of record_agent_error for an optional collaborator. -/
def errorExn : Option MetricsBehavior → Option String
  | none => none
  | some mb => mb.errorRaises

/-- A metrics collaborator none of whose record methods raises; this covers
the absent collaborator, NullMetricsRecorder and a healthy
MetricsRecorder. -/
def MetricsQuiet : Option MetricsBehavior → Bool
  | none => true
  | some mb =>
    mb.invocationRaises.isNone && mb.successRaises.isNone && mb.errorRaises.isNone

/-- The except Exception handler closing AgentExecutor.execute: it records
an agent error (a raise there escapes the handler) and returns a failure
AgentResult built from str(e). -/
def onException (m : Option MetricsBehavior) (agent action e : String)
    (duration : Rat) (ts : String) : Except String AgentResult :=
  match errorExn m with
  | some e2 => .error e2
  | none => .ok (AgentResult.failure agent action e duration ts)

/-- AgentExecutor.execute (executor.py lines 34-115). The executor
configuration (metrics, default_timeout) and the wall-clock reading
duration = time.time() - start are arguments; ts stands for
_get_timestamp(). Except.error means an exception propagated to the
caller, which only a raising metrics collaborator can cause: the
record_agent_invocation call sits before the try block, and a raise from
record_agent_error inside either except handler escapes it; a raise from
the record calls inside the try block is caught by the generic handler. -/
def execute (m : Option MetricsBehavior) (bridge : Bridge)
    (agent action : String) (params : PyDict)
    (timeout : Option Int) (default_timeout : Int)
    (duration : Rat) (ts : String) : Except String AgentResult :=
  let effective_timeout := timeout.getD default_timeout
  match invocationExn m with
  | some e => .error e
  | none =>
    match bridge agent action params with
    | .ok res =>
      let status := res.status.getD "success"
      let data := res.data.getD []
      if status == "error" then
        let error_msg := (data.lookup "error").getD (.jStr "Unknown error")
        match errorExn m with
        | some e => onException m agent action e duration ts
        | none =>
          .ok { agent, action, status, data, duration_seconds := duration,
                timestamp := ts, error := some error_msg }
      else
        match successExn m with
        | some e => onException m agent action e duration ts
        | none =>
          .ok { agent, action, status, data, duration_seconds := duration,
                timestamp := ts, error := none }
    | .timedOut =>
      match errorExn m with
      | some e => .error e
      | none =>
        .ok (AgentResult.failure agent action
          ("Timeout after " ++ toString effective_timeout ++ " seconds") duration ts)
    | .raised e => onException m agent action e duration ts

/-- A task submitted to the parallel coordinator: (agent, action, params). -/
structure Task where
  agent : String
  action : String
  params : PyDict
  deriving DecidableEq

/-- The gathered rate_limited_execute coroutines of execute_parallel:
asyncio.gather returns results in submission order, so the functional
model maps the executor over the tasks (the semaphore affects scheduling
only); the i-th execution reads the duration and timestamp oracles at
index i and passes no explicit timeout. asyncio.gather re-raises the
first exception, which only a raising metrics collaborator can produce. -/
def runTasks (m : Option MetricsBehavior) (bridge : Bridge)
    (default_timeout : Int) (dur : Nat → Rat) (ts : Nat → String) :
    List Task → Nat → Except String (List AgentResult)
  | [], _ => .ok []
  | t :: rest, i =>
    match execute m bridge t.agent t.action t.params none default_timeout
        (dur i) (ts i) with
    | .error e => .error e
    | .ok r =>
      match runTasks m bridge default_timeout dur ts rest (i + 1) with
      | .error e => .error e
      | .ok rs => .ok (r :: rs)

/-- AgentCoordinator.execute_parallel (coordinator.py lines 36-71). The
Bool of the returned pair records whether the parallel-batch metric
record_parallel_execution was emitted (the source emits it only past the
empty-list early return, and only when self.metrics is truthy). -/
def execute_parallel (m : Option MetricsBehavior) (bridge : Bridge)
    (default_timeout : Int) (dur : Nat → Rat) (ts : Nat → String)
    (tasks : List Task) : Except String (List AgentResult × Bool) :=
  if tasks.isEmpty then .ok ([], false)
  else
    match runTasks m bridge default_timeout dur ts tasks 0 with
    | .error e => .error e
    | .ok results => .ok (results, m.isSome)

/-- models/workflow.py WorkflowStep; on_error is the literal string fail
or continue. -/
structure WorkflowStep where
  name : String
  agent : String
  action : String
  params : PyDict
  on_error : String
  depends_on : List String
  timeout : Option Int
  deriving DecidableEq

/-- models/workflow.py QualityGates: three optional thresholds. -/
structure QualityGates where
  max_fixmes : Option Int
  min_documentation_score : Option Rat
  max_dead_code_percent : Option Rat
  deriving DecidableEq

/-- models/workflow.py Workflow (description omitted: the engine never
reads it). -/
structure Workflow where
  name : String
  steps : List WorkflowStep
  quality_gates : QualityGates
  deriving DecidableEq

/-- models/results.py WorkflowResult; the summary mapping holds exactly
the keys total_steps and success_rate, modelled as two fields. -/
structure WorkflowResult where
  workflow_name : String
  steps_completed : Nat
  steps_failed : Nat
  total_duration : Rat
  results : List AgentResult
  quality_gates_passed : Bool
  summary_total_steps : Nat
  summary_success_rate : Rat
  deriving DecidableEq

/-- models/results.py WorkflowResult.from_results (lines 109-132). -/
def WorkflowResult.from_results (workflow_name : String)
    (results : List AgentResult) (quality_gates_passed : Bool) : WorkflowResult :=
  let completed := (results.filter (fun r => r.status == "success")).length
  { workflow_name,
    steps_completed := completed,
    steps_failed := (results.filter (fun r => r.status == "error")).length,
    total_duration := (results.map (fun r => r.duration_seconds)).sum,
    results,
    quality_gates_passed,
    summary_total_steps := results.length,
    summary_success_rate :=
      if results.isEmpty then 0 else (completed : Rat) / (results.length : Rat) }

/-- Loop body of the max_fixmes gate (coordinator.py lines 195-199):
result.data.get with default 0; a violation needs an int instance above
the threshold. -/
def fixmeViolation (mf : Int) (r : AgentResult) : Bool :=
  let fixmes := (r.data.lookup "fixme_count").getD (.jInt 0)
  fixmes.pyIsInt && decide (mf < fixmes.pyIntVal)

/-- Loop body of the min_documentation_score gate (lines 202-209):
result.data.get with default None; a violation needs an (int, float)
instance below the threshold. -/
def docViolation (ms : Rat) (r : AgentResult) : Bool :=
  match r.data.lookup "documentation_score" with
  | none => false
  | some score => score.pyIsNum && decide (score.pyNumVal < ms)

/-- Loop body of the max_dead_code_percent gate (lines 212-219). -/
def deadCodeViolation (md : Rat) (r : AgentResult) : Bool :=
  match r.data.lookup "dead_code_percent" with
  | none => false
  | some dead => dead.pyIsNum && decide (md < dead.pyNumVal)

/-- AgentCoordinator._check_quality_gates (coordinator.py lines 178-221):
each configured gate scans all results and returns False on the first
violating result, else True. -/
def check_quality_gates (gates : QualityGates) (results : List AgentResult) : Bool :=
  if (match gates.max_fixmes with
      | some mf => results.any (fixmeViolation mf)
      | none => false) then false
  else if (match gates.min_documentation_score with
      | some ms => results.any (docViolation ms)
      | none => false) then false
  else if (match gates.max_dead_code_percent with
      | some md => results.any (deadCodeViolation md)
      | none => false) then false
  else true

/-- The dependency check heading the step loop (coordinator.py lines
98-108): the first dependency that is missing from completed_steps, or
recorded with status error, yields the WorkflowError message raised. -/
def depError (completed : List (String × AgentResult)) : List String → Option String
  | [] => none
  | d :: rest =>
    match completed.lookup d with
    | none => some ("Dependency \x27" ++ d ++ "\x27 not completed")
    | some r =>
      if r.status == "error" then
        some ("Dependency \x27" ++ d ++ "\x27 failed: " ++ optPyRepr r.error)
      else depError completed rest

/-- The WorkflowError message for an escalated step failure. -/
def stepFailMsg (stepName errText : String) : String :=
  "Step \x27" ++ stepName ++ "\x27 failed: " ++ errText

/-- The step loop of AgentCoordinator.execute_workflow (lines 97-156):
dependency check, execution through the executor with the step timeout
override, recording into the ordered results list and the completed_steps
map, and escalation when the result status is error and strict or
on_error is fail. An exception from the executor call (a raising metrics
collaborator) is caught by the except Exception arm and converted to a
synthetic zero-duration failure result, recorded the same way and subject
to the same escalation. Except.error carries the WorkflowError message. -/
def executeSteps (m : Option MetricsBehavior) (bridge : Bridge)
    (default_timeout : Int) (dur : Nat → Rat) (ts : Nat → String) (strict : Bool) :
    List WorkflowStep → Nat → List (String × AgentResult) → List AgentResult →
    Except String (List AgentResult)
  | [], _, _, results => .ok results
  | step :: rest, i, completed, results =>
    match depError completed step.depends_on with
    | some msg => .error msg
    | none =>
      match execute m bridge step.agent step.action step.params step.timeout
          default_timeout (dur i) (ts i) with
      | .ok result =>
        if result.status == "error" && (strict || step.on_error == "fail") then
          .error (stepFailMsg step.name (optPyRepr result.error))
        else
          executeSteps m bridge default_timeout dur ts strict rest (i + 1)
            ((step.name, result) :: completed) (results ++ [result])
      | .error e =>
        if strict || step.on_error == "fail" then
          .error (stepFailMsg step.name e)
        else
          executeSteps m bridge default_timeout dur ts strict rest (i + 1)
            ((step.name, AgentResult.failure step.agent step.action e 0 (ts i)) :: completed)
            (results ++ [AgentResult.failure step.agent step.action e 0 (ts i)])

/-- AgentCoordinator.execute_workflow (lines 73-176): run the step loop;
on normal completion evaluate quality gates over the recorded results and
build the WorkflowResult; Except.error carries the WorkflowError message
of an aborted run, in which case no gates are evaluated and no
WorkflowResult exists. -/
def execute_workflow (m : Option MetricsBehavior) (bridge : Bridge)
    (default_timeout : Int) (dur : Nat → Rat) (ts : Nat → String)
    (wf : Workflow) (strict : Bool) : Except String WorkflowResult :=
  match executeSteps m bridge default_timeout dur ts strict wf.steps 0 [] [] with
  | .error msg => .error msg
  | .ok results =>
    .ok (WorkflowResult.from_results wf.name results
          (check_quality_gates wf.quality_gates results))

/-! Concrete fixtures used by witnesses and counterexamples. -/

/-- A bridge returning a fixed in-band success with empty data. -/
def okBridge : Bridge := fun _ _ _ => .ok ⟨some "success", some []⟩

/-- A bridge whose invocations all time out. -/
def timeoutBridge : Bridge := fun _ _ _ => .timedOut

/-- A bridge returning an in-band error whose data maps the key error to
the empty string. -/
def emptyErrBridge : Bridge := fun _ _ _ => .ok ⟨some "error", some [("error", .jStr "")]⟩

/-- A bridge returning an in-band error whose data carries the message
boom. -/
def errBridge : Bridge := fun _ _ _ => .ok ⟨some "error", some [("error", .jStr "boom")]⟩

/-- A metrics collaborator whose record_agent_invocation raises. -/
def raisingMetrics : MetricsBehavior := ⟨some "metrics boom", none, none⟩

/-- A success result carrying the given data mapping. -/
def resWithData (data : PyDict) : AgentResult :=
  ⟨"a", "act", "success", data, 0, "t", none⟩

/-- A workflow step with error policy fail and no dependencies. -/
def step0 : WorkflowStep := ⟨"s1", "a", "act", [], "fail", [], none⟩

/-- A workflow step with error policy continue and no dependencies. -/
def stepCont (nm : String) : WorkflowStep := ⟨nm, "a", "act", [], "continue", [], none⟩

/-- Two concrete parallel tasks. -/
def task1 : Task := ⟨"a1", "ac1", []⟩

/-- A second concrete parallel task. -/
def task2 : Task := ⟨"a2", "ac2", []⟩

/-! Theorems. Helper lemmas come first; each claim has exactly one
theorem, named after its claim id. -/

/-- A quiet metrics collaborator raises from none of the three record
methods the executor calls. -/
theorem quiet_exns {m : Option MetricsBehavior} (hq : MetricsQuiet m = true) :
    invocationExn m = none ∧ successExn m = none ∧ errorExn m = none := by
  cases m with
  | none => exact ⟨rfl, rfl, rfl⟩
  | some mb =>
    simp only [MetricsQuiet, Bool.and_eq_true, Option.isNone_iff_eq_none] at hq
    exact ⟨hq.1.1, hq.1.2, hq.2⟩

/-- Under a quiet metrics collaborator the executor always returns a
normally constructed AgentResult carrying the requested agent and action,
with status error on every failure outcome. -/
theorem execute_quiet_spec (m : Option MetricsBehavior) (bridge : Bridge)
    (agent action : String) (params : PyDict) (timeout : Option Int)
    (default_timeout : Int) (duration : Rat) (ts : String)
    (hq : MetricsQuiet m = true) :
    ∃ r, execute m bridge agent action params timeout default_timeout duration ts
        = Except.ok r ∧ r.agent = agent ∧ r.action = action ∧
      ((bridge agent action params).isFailure = true → r.status = "error") := by
  obtain ⟨h1, h2, h3⟩ := quiet_exns hq
  cases hb : bridge agent action params with
  | ok res =>
    by_cases hs : res.status.getD "success" = "error"
    · refine
        ⟨{ agent, action, status := res.status.getD "success",
           data := res.data.getD [], duration_seconds := duration, timestamp := ts,
           error := some (((res.data.getD []).lookup "error").getD (.jStr "Unknown error")) },
         ?_, rfl, rfl, fun _ => hs⟩
      simp [execute, h1, h3, hb, hs]
    · refine
        ⟨{ agent, action, status := res.status.getD "success",
           data := res.data.getD [], duration_seconds := duration, timestamp := ts,
           error := none },
         ?_, rfl, rfl, fun hf => absurd (by simpa [InvokeOutcome.isFailure, hb] using hf) hs⟩
      simp [execute, h1, h2, hb, hs]
  | timedOut =>
    exact ⟨AgentResult.failure agent action
      ("Timeout after " ++ toString (timeout.getD default_timeout) ++ " seconds")
      duration ts, by simp [execute, h1, h3, hb], rfl, rfl, fun _ => rfl⟩
  | raised e =>
    exact ⟨AgentResult.failure agent action e duration ts,
      by simp [execute, onException, h1, h3, hb], rfl, rfl, fun _ => rfl⟩

/-- Claim C1, counterexample: with a metrics collaborator whose
record_agent_invocation raises, execute propagates the exception to the
caller instead of returning an AgentResult — the call sits before the try
block of executor.py. -/
theorem C1_counterexample :
    execute (some raisingMetrics) okBridge "a" "act" [] none 60 0 "t" =
      Except.error "metrics boom" := rfl

/-- Claim C1 (amended): for every call whose metrics collaborator raises
from none of its record methods (including the absent collaborator), no
exception propagates out of execute: whatever the invocation outcome, a
normally constructed AgentResult is returned, and every failure mode
(in-band error, timeout, raised exception) yields status error. -/
theorem C1_no_throw (m : Option MetricsBehavior) (bridge : Bridge)
    (agent action : String) (params : PyDict) (timeout : Option Int)
    (default_timeout : Int) (duration : Rat) (ts : String)
    (hq : MetricsQuiet m = true) :
    ∃ r, execute m bridge agent action params timeout default_timeout duration ts
        = Except.ok r ∧
      ((bridge agent action params).isFailure = true → r.status = "error") := by
  obtain ⟨r, he, _, _, hf⟩ :=
    execute_quiet_spec m bridge agent action params timeout default_timeout duration ts hq
  exact ⟨r, he, hf⟩

/-- Claim C1, witness: the amended theorem at a concrete timed-out
invocation with no metrics collaborator. -/
theorem C1_no_throw_witness :
    ∃ r, execute none timeoutBridge "a" "act" [] none 60 0 "t" = Except.ok r ∧
      ((timeoutBridge "a" "act" []).isFailure = true → r.status = "error") :=
  C1_no_throw none timeoutBridge "a" "act" [] none 60 0 "t" rfl

/-- Claim C6, counterexample: an in-band error whose data maps the key
error to the empty string yields an AgentResult with status error whose
error message is the empty string — not a non-empty message. -/
theorem C6_counterexample :
    execute none emptyErrBridge "a" "act" [] none 60 0 "t" =
      Except.ok ⟨"a", "act", "error", [("error", JValue.jStr "")], 0, "t",
        some (JValue.jStr "")⟩ := rfl

/-- Claim C6 (amended): for every invocation-boundary return whose status
field is error, the resulting AgentResult has status error, carries the
raw returned data mapping unchanged, and its error message is the value
at the data mapping key error, falling back to Unknown error when that
key is absent (so it is non-empty whenever the provided value is). -/
theorem C6_inband_error (m : Option MetricsBehavior) (bridge : Bridge)
    (agent action : String) (params : PyDict) (timeout : Option Int)
    (default_timeout : Int) (duration : Rat) (ts : String) (res : InvokeResult)
    (hq : MetricsQuiet m = true)
    (hb : bridge agent action params = InvokeOutcome.ok res)
    (hs : res.status.getD "success" = "error") :
    execute m bridge agent action params timeout default_timeout duration ts =
      Except.ok
        { agent, action, status := "error", data := res.data.getD [],
          duration_seconds := duration, timestamp := ts,
          error := some (((res.data.getD []).lookup "error").getD
            (JValue.jStr "Unknown error")) } := by
  obtain ⟨h1, _, h3⟩ := quiet_exns hq
  simp [execute, h1, h3, hb, hs]

/-- Claim C6, witness: the amended theorem at a concrete in-band error
carrying the message boom. -/
theorem C6_inband_error_witness :
    execute none errBridge "a" "act" [] none 60 0 "t" =
      Except.ok
        { agent := "a", action := "act", status := "error",
          data := [("error", JValue.jStr "boom")], duration_seconds := 0,
          timestamp := "t", error := some (JValue.jStr "boom") } :=
  C6_inband_error none errBridge "a" "act" [] none 60 0 "t"
    ⟨some "error", some [("error", JValue.jStr "boom")]⟩ rfl rfl rfl

/-- Claim C7: when the awaited invocation times out, execute returns an
AgentResult with status error, empty data, and the message Timeout after
t seconds where t is the effective timeout: the explicit argument when
given, else the configured default. -/
theorem C7_timeout (m : Option MetricsBehavior) (bridge : Bridge)
    (agent action : String) (params : PyDict) (timeout : Option Int)
    (default_timeout : Int) (duration : Rat) (ts : String)
    (hq : MetricsQuiet m = true)
    (ht : bridge agent action params = InvokeOutcome.timedOut) :
    execute m bridge agent action params timeout default_timeout duration ts =
      Except.ok
        { agent, action, status := "error", data := [],
          duration_seconds := duration, timestamp := ts,
          error := some (.jStr ("Timeout after " ++
            toString (timeout.getD default_timeout) ++ " seconds")) } := by
  obtain ⟨h1, _, h3⟩ := quiet_exns hq
  simp [execute, h1, h3, ht, AgentResult.failure]

/-- Claim C7, witness: an explicit timeout of 5 with default 60 produces
the message naming 5. -/
theorem C7_timeout_witness :
    execute none timeoutBridge "a" "act" [] (some 5) 60 0 "t" =
      Except.ok
        { agent := "a", action := "act", status := "error", data := [],
          duration_seconds := 0, timestamp := "t",
          error := some (.jStr "Timeout after 5 seconds") } :=
  C7_timeout none timeoutBridge "a" "act" [] (some 5) 60 0 "t" rfl rfl

/-- depError succeeds exactly when every dependency is recorded in the
completed map with a non-error status. -/
theorem depError_none_iff (completed : List (String × AgentResult)) :
    ∀ deps, depError completed deps = none ↔
      ∀ d ∈ deps, ∃ r, completed.lookup d = some r ∧ r.status ≠ "error"
  | [] => by simp [depError]
  | d :: rest => by
    have ih := depError_none_iff completed rest
    cases h : completed.lookup d with
    | none =>
      refine iff_of_false (by simp [depError, h]) (fun hall => ?_)
      obtain ⟨r, hr, _⟩ := hall d (by simp)
      rw [h] at hr
      cases hr
    | some r =>
      by_cases hr : r.status = "error"
      · refine iff_of_false (by simp [depError, h, hr]) (fun hall => ?_)
        obtain ⟨r', hr', hne⟩ := hall d (by simp)
        rw [h] at hr'
        exact hne ((Option.some.inj hr') ▸ hr)
      · rw [show depError completed (d :: rest) = depError completed rest from by
          simp [depError, h, hr]]
        rw [ih]
        constructor
        · intro hrest d' hd'
          rcases List.mem_cons.mp hd' with rfl | hd'
          · exact ⟨r, h, hr⟩
          · exact hrest d' hd'
        · intro hall d' hd'
          exact hall d' (List.mem_cons_of_mem _ hd')

/-- When depError raises, its message names a dependency of the list that
is either missing from the completed map or recorded with status error,
with the exact WorkflowError text of the source. -/
theorem depError_some_spec (completed : List (String × AgentResult)) :
    ∀ deps msg, depError completed deps = some msg →
      ∃ d, d ∈ deps ∧
        ((completed.lookup d = none ∧
            msg = "Dependency \x27" ++ d ++ "\x27 not completed") ∨
         (∃ r, completed.lookup d = some r ∧ r.status = "error" ∧
            msg = "Dependency \x27" ++ d ++ "\x27 failed: " ++ optPyRepr r.error))
  | [], msg => by simp [depError]
  | d :: rest, msg => by
    cases h : completed.lookup d with
    | none =>
      intro he
      simp only [depError, h, Option.some.injEq] at he
      exact ⟨d, by simp, Or.inl ⟨h, he.symm⟩⟩
    | some r =>
      by_cases hr : r.status = "error"
      · intro he
        simp only [depError, h, hr, beq_self_eq_true, if_pos, Option.some.injEq] at he
        exact ⟨d, by simp, Or.inr ⟨r, h, hr, he.symm⟩⟩
      · intro he
        have he' : depError completed rest = some msg := by
          simpa [depError, h, hr] using he
        obtain ⟨d', hd', hcase⟩ := depError_some_spec completed rest msg he'
        exact ⟨d', List.mem_cons_of_mem _ hd', hcase⟩

/-- Claim C2: the dependency check preceding each step raises a
WorkflowError exactly when some name in depends_on is absent from the
completed map or recorded with status error; the raised message names
such a dependency (and, for a failed one, its error message); and a step
whose check raises is never executed — the loop aborts with that message
for every bridge oracle, every strict flag and every step error policy,
so even on_error continue suppresses neither error. -/
theorem C2_dependency_check (completed : List (String × AgentResult))
    (deps : List String) :
    (depError completed deps = none ↔
      ∀ d ∈ deps, ∃ r, completed.lookup d = some r ∧ r.status ≠ "error") ∧
    (∀ msg, depError completed deps = some msg →
      ∃ d, d ∈ deps ∧
        ((completed.lookup d = none ∧
            msg = "Dependency \x27" ++ d ++ "\x27 not completed") ∨
         (∃ r, completed.lookup d = some r ∧ r.status = "error" ∧
            msg = "Dependency \x27" ++ d ++ "\x27 failed: " ++ optPyRepr r.error))) ∧
    (∀ (m : Option MetricsBehavior) (bridge : Bridge) (default_timeout : Int)
        (dur : Nat → Rat) (ts : Nat → String) (strict : Bool)
        (step : WorkflowStep) (rest : List WorkflowStep) (i : Nat)
        (results : List AgentResult) (msg : String),
      step.depends_on = deps → depError completed deps = some msg →
      executeSteps m bridge default_timeout dur ts strict (step :: rest) i
          completed results = Except.error msg) := by
  refine ⟨depError_none_iff completed deps, depError_some_spec completed deps, ?_⟩
  intro m bridge default_timeout dur ts strict step rest i results msg hdeps he
  rw [executeSteps, hdeps, he]

/-- Claim C3: when a step result has status error and strict is true or
the step policy is fail, the step loop aborts at once with a
WorkflowError naming the step and its error message, whatever steps
remain; and an aborted loop makes execute_workflow return only that
error, so quality gates are never evaluated and no WorkflowResult is
constructed. -/
theorem C3_abort_on_failure (m : Option MetricsBehavior) (bridge : Bridge)
    (default_timeout : Int) (dur : Nat → Rat) (ts : Nat → String) (strict : Bool)
    (step : WorkflowStep) (rest : List WorkflowStep) (i : Nat)
    (completed : List (String × AgentResult)) (results : List AgentResult)
    (r : AgentResult)
    (hdep : depError completed step.depends_on = none)
    (hexec : execute m bridge step.agent step.action step.params step.timeout
        default_timeout (dur i) (ts i) = Except.ok r)
    (herr : r.status = "error")
    (hpol : strict = true ∨ step.on_error = "fail") :
    executeSteps m bridge default_timeout dur ts strict (step :: rest) i
        completed results = Except.error (stepFailMsg step.name (optPyRepr r.error)) ∧
    ∀ (wf : Workflow) (msg : String),
      executeSteps m bridge default_timeout dur ts strict wf.steps 0 [] [] =
          Except.error msg →
      execute_workflow m bridge default_timeout dur ts wf strict =
        Except.error msg := by
  constructor
  · have hcond : (r.status == "error" && (strict || step.on_error == "fail")) = true := by
      rcases hpol with h | h <;> simp [herr, h]
    rw [executeSteps, hdep, hexec]
    simp [hcond]
  · intro wf msg h
    rw [execute_workflow, h]

/-- Claim C3, witness: a single failing step with policy fail, executed
from the empty state, aborts with the message naming the step and boom. -/
theorem C3_abort_on_failure_witness :
    (executeSteps none errBridge 60 (fun _ => 0) (fun _ => "t") false
        [step0] 0 [] [] =
      Except.error (stepFailMsg "s1" (optPyRepr (some (JValue.jStr "boom"))))) ∧
    ∀ (wf : Workflow) (msg : String),
      executeSteps none errBridge 60 (fun _ => 0) (fun _ => "t") false
          wf.steps 0 [] [] = Except.error msg →
      execute_workflow none errBridge 60 (fun _ => 0) (fun _ => "t") wf false =
        Except.error msg :=
  C3_abort_on_failure none errBridge 60 (fun _ => 0) (fun _ => "t") false
    step0 [] 0 [] []
    ⟨"a", "act", "error", [("error", JValue.jStr "boom")], 0, "t",
      some (JValue.jStr "boom")⟩
    rfl rfl rfl (Or.inr rfl)

/-- Under a quiet metrics collaborator the parallel task runner returns
one result per task, in order, each carrying its task agent and action. -/
theorem runTasks_quiet (m : Option MetricsBehavior) (bridge : Bridge)
    (default_timeout : Int) (dur : Nat → Rat) (ts : Nat → String)
    (hq : MetricsQuiet m = true) :
    ∀ (tasks : List Task) (i : Nat),
      ∃ results,
        runTasks m bridge default_timeout dur ts tasks i = Except.ok results ∧
        results.map (fun r => (r.agent, r.action)) =
          tasks.map (fun t => (t.agent, t.action))
  | [], _ => ⟨[], rfl, rfl⟩
  | t :: rest, i => by
    obtain ⟨r, hr, hag, hac, _⟩ := execute_quiet_spec m bridge t.agent t.action
      t.params none default_timeout (dur i) (ts i) hq
    obtain ⟨rs, hrs, hmap⟩ :=
      runTasks_quiet m bridge default_timeout dur ts hq rest (i + 1)
    refine ⟨r :: rs, ?_, ?_⟩
    · simp [runTasks, hr, hrs]
    · simp [hmap, hag, hac]

/-- Claim C4: execute_parallel returns exactly one AgentResult per input
task, in input order, element i carrying the i-th task agent and action,
for every bridge oracle (hence every success and failure mix); the empty
task list returns the empty list at once with no parallel-batch metric
emitted. -/
theorem C4_parallel_shape (m : Option MetricsBehavior) (bridge : Bridge)
    (default_timeout : Int) (dur : Nat → Rat) (ts : Nat → String)
    (tasks : List Task) (hq : MetricsQuiet m = true) :
    (∃ results emitted,
      execute_parallel m bridge default_timeout dur ts tasks =
          Except.ok (results, emitted) ∧
      results.length = tasks.length ∧
      ∀ i : Nat,
        results[i]?.map (fun r => (r.agent, r.action)) =
          tasks[i]?.map (fun t => (t.agent, t.action))) ∧
    execute_parallel m bridge default_timeout dur ts [] = Except.ok ([], false) := by
  obtain ⟨results, hrun, hmap⟩ :=
    runTasks_quiet m bridge default_timeout dur ts hq tasks 0
  constructor
  · cases tasks with
    | nil => exact ⟨[], false, rfl, rfl, fun i => by cases i <;> rfl⟩
    | cons t rest =>
      refine ⟨results, m.isSome, ?_, ?_, ?_⟩
      · simp [execute_parallel, hrun]
      · simpa using congrArg List.length hmap
      · intro i
        have h := congrArg (fun l => l[i]?) hmap
        simpa only [List.getElem?_map] using h
  · rfl

/-- Claim C4, witness: two concrete tasks against the fixed success
bridge with no metrics collaborator. -/
theorem C4_parallel_shape_witness :
    (∃ results emitted,
      execute_parallel none okBridge 60 (fun _ => 0) (fun _ => "t")
          [task1, task2] = Except.ok (results, emitted) ∧
      results.length = [task1, task2].length ∧
      ∀ i : Nat,
        results[i]?.map (fun r => (r.agent, r.action)) =
          [task1, task2][i]?.map (fun t => (t.agent, t.action))) ∧
    execute_parallel none okBridge 60 (fun _ => 0) (fun _ => "t") [] =
      Except.ok ([], false) :=
  C4_parallel_shape none okBridge 60 (fun _ => 0) (fun _ => "t") [task1, task2] rfl

/-- With strict off and every step carrying policy continue and no
dependencies, the step loop never raises. -/
theorem executeSteps_continue_ok (m : Option MetricsBehavior) (bridge : Bridge)
    (default_timeout : Int) (dur : Nat → Rat) (ts : Nat → String) :
    ∀ (steps : List WorkflowStep) (i : Nat)
      (completed : List (String × AgentResult)) (results : List AgentResult),
      (∀ s ∈ steps, s.on_error = "continue" ∧ s.depends_on = []) →
      ∃ rs, executeSteps m bridge default_timeout dur ts false steps i
        completed results = Except.ok rs
  | [], _, _, results => fun _ => ⟨results, rfl⟩
  | step :: rest, i, completed, results => by
    intro hall
    obtain ⟨hcont, hdeps⟩ := hall step (by simp)
    have hrest : ∀ s ∈ rest, s.on_error = "continue" ∧ s.depends_on = [] :=
      fun s hs => hall s (List.mem_cons_of_mem _ hs)
    have hdep : depError completed step.depends_on = none := by rw [hdeps]; rfl
    cases hex : execute m bridge step.agent step.action step.params step.timeout
        default_timeout (dur i) (ts i) with
    | ok r =>
      obtain ⟨rs, hrs⟩ := executeSteps_continue_ok m bridge default_timeout dur ts
        rest (i + 1) ((step.name, r) :: completed) (results ++ [r]) hrest
      have hred : executeSteps m bridge default_timeout dur ts false
          (step :: rest) i completed results =
          executeSteps m bridge default_timeout dur ts false rest (i + 1)
            ((step.name, r) :: completed) (results ++ [r]) := by
        simp [executeSteps, hdep, hex, hcont]
      exact ⟨rs, hred ▸ hrs⟩
    | error e =>
      obtain ⟨rs, hrs⟩ := executeSteps_continue_ok m bridge default_timeout dur ts
        rest (i + 1)
        ((step.name, AgentResult.failure step.agent step.action e 0 (ts i)) :: completed)
        (results ++ [AgentResult.failure step.agent step.action e 0 (ts i)]) hrest
      have hred : executeSteps m bridge default_timeout dur ts false
          (step :: rest) i completed results =
          executeSteps m bridge default_timeout dur ts false rest (i + 1)
            ((step.name, AgentResult.failure step.agent step.action e 0 (ts i)) :: completed)
            (results ++ [AgentResult.failure step.agent step.action e 0 (ts i)]) := by
        simp [executeSteps, hdep, hex, hcont]
      exact ⟨rs, hred ▸ hrs⟩

/-- Claim C8: when the step loop completes without abort, execute_workflow
returns a WorkflowResult whose steps_completed counts results with status
success, steps_failed counts status error, total_duration sums the result
durations, results is the ordered recorded list, and whose summary holds
total_steps = number of results and success_rate = completed over total,
or 0 when there are no results; in particular with strict off and every
step carrying on_error continue and no dependencies, the workflow
completes without raising. -/
theorem C8_workflow_result (m : Option MetricsBehavior) (bridge : Bridge)
    (default_timeout : Int) (dur : Nat → Rat) (ts : Nat → String)
    (wf : Workflow) (strict : Bool) :
    (∀ results,
      executeSteps m bridge default_timeout dur ts strict wf.steps 0 [] [] =
          Except.ok results →
      ∃ wr, execute_workflow m bridge default_timeout dur ts wf strict =
          Except.ok wr ∧
        wr.steps_completed = results.countP (fun r => r.status == "success") ∧
        wr.steps_failed = results.countP (fun r => r.status == "error") ∧
        wr.total_duration = (results.map (fun r => r.duration_seconds)).sum ∧
        wr.results = results ∧
        wr.summary_total_steps = results.length ∧
        wr.summary_success_rate =
          (if results.isEmpty then 0
           else (results.countP (fun r => r.status == "success") : Rat) /
             (results.length : Rat))) ∧
    (strict = false →
      (∀ s ∈ wf.steps, s.on_error = "continue" ∧ s.depends_on = []) →
      ∃ wr, execute_workflow m bridge default_timeout dur ts wf strict =
        Except.ok wr) := by
  constructor
  · intro results h
    refine ⟨WorkflowResult.from_results wf.name results
        (check_quality_gates wf.quality_gates results),
      ?_, ?_, ?_, rfl, rfl, rfl, ?_⟩
    · rw [execute_workflow, h]
    · simp [WorkflowResult.from_results, List.countP_eq_length_filter]
    · simp [WorkflowResult.from_results, List.countP_eq_length_filter]
    · simp [WorkflowResult.from_results, List.countP_eq_length_filter]
  · intro hstrict hall
    subst hstrict
    obtain ⟨rs, hrs⟩ := executeSteps_continue_ok m bridge default_timeout dur ts
      wf.steps 0 [] [] hall
    exact ⟨_, by rw [execute_workflow, hrs]⟩

/-- The max_fixmes loop body passes exactly when the looked-up value,
defaulting to int 0, is not an int instance above the threshold. -/
theorem fixmeViolation_eq_false_iff (mf : Int) (r : AgentResult) :
    fixmeViolation mf r = false ↔
      (match r.data.lookup "fixme_count" with
       | none => 0 ≤ mf
       | some v => v.pyIsInt = true → v.pyIntVal ≤ mf) := by
  unfold fixmeViolation
  cases h : r.data.lookup "fixme_count" with
  | none =>
    simp only [h, Option.getD_some, Option.getD_none, JValue.pyIsInt,
      JValue.pyIntVal, Bool.true_and, decide_eq_false_iff_not]
    exact not_lt
  | some v =>
    cases hv : v.pyIsInt with
    | false => simp [h, hv]
    | true =>
      simp only [h, hv, Option.getD_some, Bool.true_and, decide_eq_false_iff_not]
      simp [not_lt]

/-- The min_documentation_score loop body passes exactly when any numeric
value found under the key meets the threshold. -/
theorem docViolation_eq_false_iff (ms : Rat) (r : AgentResult) :
    docViolation ms r = false ↔
      ∀ v, r.data.lookup "documentation_score" = some v → v.pyIsNum = true →
        ms ≤ v.pyNumVal := by
  unfold docViolation
  cases h : r.data.lookup "documentation_score" with
  | none => simp [h]
  | some v =>
    cases hv : v.pyIsNum with
    | false => simp [h, hv]
    | true => simp [h, hv, not_lt]

/-- The max_dead_code_percent loop body passes exactly when any numeric
value found under the key meets the threshold. -/
theorem deadCodeViolation_eq_false_iff (md : Rat) (r : AgentResult) :
    deadCodeViolation md r = false ↔
      ∀ v, r.data.lookup "dead_code_percent" = some v → v.pyIsNum = true →
        v.pyNumVal ≤ md := by
  unfold deadCodeViolation
  cases h : r.data.lookup "dead_code_percent" with
  | none => simp [h]
  | some v =>
    cases hv : v.pyIsNum with
    | false => simp [h, hv]
    | true => simp [h, hv, not_lt]

/-- check_quality_gates passes exactly when no configured gate finds a
violating result. -/
theorem check_quality_gates_eq_true_iff (gates : QualityGates)
    (results : List AgentResult) :
    check_quality_gates gates results = true ↔
      ((∀ mf, gates.max_fixmes = some mf →
          ∀ r ∈ results, fixmeViolation mf r = false) ∧
       (∀ ms, gates.min_documentation_score = some ms →
          ∀ r ∈ results, docViolation ms r = false) ∧
       (∀ md, gates.max_dead_code_percent = some md →
          ∀ r ∈ results, deadCodeViolation md r = false)) := by
  obtain ⟨omf, oms, omd⟩ := gates
  unfold check_quality_gates
  cases omf <;> cases oms <;> cases omd <;>
    simp [List.any_eq_true]

/-- Claim C5 (amended): after a workflow completes without abort,
quality_gates_passed is true iff every configured gate is satisfied by
every recorded result, where for min_documentation_score and
max_dead_code_percent a result lacking the key passes and a numeric value
must meet the threshold, while for max_fixmes a result lacking
fixme_count is treated as holding fixme_count 0, so absence passes
exactly when the threshold is nonnegative; with no gates configured the
flag is vacuously true, and max_fixmes 5 yields false against a result
with fixme_count 20 and true against fixme_count 3. -/
theorem C5_quality_gates (gates : QualityGates) (results : List AgentResult) :
    (check_quality_gates gates results = true ↔
      ((∀ mf, gates.max_fixmes = some mf → ∀ r ∈ results,
          (match r.data.lookup "fixme_count" with
           | none => 0 ≤ mf
           | some v => v.pyIsInt = true → v.pyIntVal ≤ mf)) ∧
       (∀ ms, gates.min_documentation_score = some ms → ∀ r ∈ results,
          ∀ v, r.data.lookup "documentation_score" = some v → v.pyIsNum = true →
            ms ≤ v.pyNumVal) ∧
       (∀ md, gates.max_dead_code_percent = some md → ∀ r ∈ results,
          ∀ v, r.data.lookup "dead_code_percent" = some v → v.pyIsNum = true →
            v.pyNumVal ≤ md))) ∧
    check_quality_gates ⟨none, none, none⟩ results = true ∧
    check_quality_gates ⟨some 5, none, none⟩
      [resWithData [("fixme_count", JValue.jInt 20)]] = false ∧
    check_quality_gates ⟨some 5, none, none⟩
      [resWithData [("fixme_count", JValue.jInt 3)]] = true := by
  refine ⟨?_, ?_, by decide, by decide⟩
  · rw [check_quality_gates_eq_true_iff]
    refine and_congr ?_ (and_congr ?_ ?_)
    · exact forall_congr' fun mf => imp_congr_right fun _ =>
        forall_congr' fun r => imp_congr_right fun _ =>
          fixmeViolation_eq_false_iff mf r
    · exact forall_congr' fun ms => imp_congr_right fun _ =>
        forall_congr' fun r => imp_congr_right fun _ =>
          docViolation_eq_false_iff ms r
    · exact forall_congr' fun md => imp_congr_right fun _ =>
        forall_congr' fun r => imp_congr_right fun _ =>
          deadCodeViolation_eq_false_iff md r
  · rfl

/-- Claim C5, counterexample: with max_fixmes configured as -1, a result
whose data lacks fixme_count is evaluated with the default 0, which
violates the gate, so quality_gates_passed is false although no recorded
data mapping contains the key. -/
theorem C5_counterexample :
    check_quality_gates ⟨some (-1), none, none⟩ [resWithData []] = false ∧
    (resWithData []).data.lookup "fixme_count" = none := ⟨by decide, rfl⟩

/-- Claim C10: a data value of unexpected type never causes a violation —
a fixme_count that is not an int instance never violates max_fixmes, a
documentation_score or dead_code_percent that is neither int nor float
never violates its gate, a result whose three gate keys all hold
wrong-typed values passes every configured gate set, and a result lacking
fixme_count is evaluated by the max_fixmes gate as if fixme_count were
0. -/
theorem C10_wrong_type_passes :
    (∀ (mf : Int) (r : AgentResult) (v : JValue),
      r.data.lookup "fixme_count" = some v → v.pyIsInt = false →
      fixmeViolation mf r = false) ∧
    (∀ (ms : Rat) (r : AgentResult) (v : JValue),
      r.data.lookup "documentation_score" = some v → v.pyIsNum = false →
      docViolation ms r = false) ∧
    (∀ (md : Rat) (r : AgentResult) (v : JValue),
      r.data.lookup "dead_code_percent" = some v → v.pyIsNum = false →
      deadCodeViolation md r = false) ∧
    (∀ (gates : QualityGates) (r : AgentResult) (v1 v2 v3 : JValue),
      r.data.lookup "fixme_count" = some v1 → v1.pyIsInt = false →
      r.data.lookup "documentation_score" = some v2 → v2.pyIsNum = false →
      r.data.lookup "dead_code_percent" = some v3 → v3.pyIsNum = false →
      check_quality_gates gates [r] = true) ∧
    (∀ (mf : Int) (r : AgentResult),
      r.data.lookup "fixme_count" = none →
      fixmeViolation mf r =
        fixmeViolation mf { r with data := [("fixme_count", JValue.jInt 0)] }) := by
  have hfix : ∀ (mf : Int) (r : AgentResult) (v : JValue),
      r.data.lookup "fixme_count" = some v → v.pyIsInt = false →
      fixmeViolation mf r = false := by
    intro mf r v h hv
    simp [fixmeViolation, h, hv]
  have hdoc : ∀ (ms : Rat) (r : AgentResult) (v : JValue),
      r.data.lookup "documentation_score" = some v → v.pyIsNum = false →
      docViolation ms r = false := by
    intro ms r v h hv
    simp [docViolation, h, hv]
  have hdead : ∀ (md : Rat) (r : AgentResult) (v : JValue),
      r.data.lookup "dead_code_percent" = some v → v.pyIsNum = false →
      deadCodeViolation md r = false := by
    intro md r v h hv
    simp [deadCodeViolation, h, hv]
  refine ⟨hfix, hdoc, hdead, ?_, ?_⟩
  · intro gates r v1 v2 v3 h1 hv1 h2 hv2 h3 hv3
    rw [check_quality_gates_eq_true_iff]
    refine ⟨?_, ?_, ?_⟩
    · intro mf _ r' hr'
      rw [List.mem_singleton.mp hr']
      exact hfix mf r v1 h1 hv1
    · intro ms _ r' hr'
      rw [List.mem_singleton.mp hr']
      exact hdoc ms r v2 h2 hv2
    · intro md _ r' hr'
      rw [List.mem_singleton.mp hr']
      exact hdead md r v3 h3 hv3
  · intro mf r h
    simp [fixmeViolation, h, List.lookup]

end MultiAgentCli
